import Mathlib

/-!
Shallow embedding of the todoist-cli API client component (the
reminder-capable revision of `src/core/todoist.ts`, together with
`CliError` from `src/lib/errors.ts`): the reminder value parser, the
retrying request transport, the batched sync protocol adapter, and the
task operations facade.

Network I/O is modelled by an oracle assigning each attempt index its
`fetch` outcome; UUID generation by an injected generator indexed by
call order. Each transport call that actually reaches the network is
recorded as a `CallEvent`, so theorems can speak about how many calls
and attempts were made and in which order.
-/

deriving instance DecidableEq for Except

namespace Todoist

/-- Model of `CliError` from `lib/errors.ts`: a message and a numeric exit code,
whose constructor defaults the code to 1. -/
structure CliError where
  message : String
  exitCode : Nat
  deriving Repr, DecidableEq

/-- The test `/^\d+$/.test(value)`: one or more ASCII digits and nothing
else. -/
def isDigitString (s : String) : Bool :=
  !s.data.isEmpty && s.data.all Char.isDigit

/-- The exact numeric value denoted by a digit string, as computed by
`Number(value)` before rounding. -/
def digitsToNat (s : String) : Nat :=
  s.data.foldl (fun acc c => acc * 10 + (c.toNat - 48)) 0

/-- Model of `Number.isFinite` of the binary64 double produced by `Number` on a
digit string: IEEE-754 round-to-nearest overflows to Infinity exactly at
and above `2 ^ 1024 - 2 ^ 970`. -/
def jsNumberFinite (n : Nat) : Bool :=
  n < 2 ^ 1024 - 2 ^ 970

/-- The reminder type tag, `"relative" | "absolute"`. -/
inductive ReminderKind where
  | relative
  | absolute
  deriving Repr, DecidableEq

/-- The optional `due` payload `due?: { date: string }`. -/
structure DueSpec where
  date : String
  deriving Repr, DecidableEq

/-- The `args` record of a `ReminderCommand`. -/
structure ReminderArgs where
  item_id : String
  type : ReminderKind
  minute_offset : Option Nat
  due : Option DueSpec
  deriving Repr, DecidableEq

/-- Model of `parseReminderValue`: a digit-only string becomes a relative minute
offset (rejecting non-finite and nonpositive numeric values with exit
code 2); every other string passes through verbatim as an absolute
date string. -/
def parseReminderValue (value : String) : Except CliError ReminderArgs :=
  if isDigitString value then
    let minuteOffset := digitsToNat value
    if !jsNumberFinite minuteOffset || decide (minuteOffset ≤ 0) then
      .error { message := "Invalid reminder minutes value: " ++ value, exitCode := 2 }
    else
      .ok { item_id := "", type := .relative, minute_offset := some minuteOffset, due := none }
  else
    .ok { item_id := "", type := .absolute, minute_offset := none, due := some { date := value } }

/-- Model of `EffectiveConfig` from `core/types.ts`. -/
structure EffectiveConfig where
  endpoint : String
  apiToken : Option String
  timeout : Nat
  retries : Nat
  deriving Repr, DecidableEq

/-- The JS truthiness test `!this.cfg.apiToken`: the token counts as
unset when absent or the empty string. -/
def tokenUnset (cfg : EffectiveConfig) : Bool :=
  match cfg.apiToken with
  | none => true
  | some s => s.data.isEmpty

/-- Outcome of one `fetch` attempt: a thrown network or timeout-abort
error, or an HTTP response with status code, body text, status text and
the (already parsed) JSON value. -/
inductive FetchOutcome (α : Type) where
  | netFail (message : String)
  | resp (status : Nat) (bodyText : String) (statusText : String) (value : α)

/-- An error captured by the retry loop: the `CliError` thrown for a
non-2xx response, or a raw network error. -/
inductive RawError where
  | cli (e : CliError)
  | net (message : String)
  deriving Repr, DecidableEq

/-- The try-block of one attempt: a non-ok status (outside 200-299)
throws a `CliError` carrying the body text, or the status text when the
body is empty; a 204 returns no value; any other 2xx returns the parsed
value. -/
def attemptOutcome {α : Type} : FetchOutcome α → Except RawError (Option α)
  | .netFail msg => .error (.net msg)
  | .resp status bodyText statusText value =>
    if 200 ≤ status ∧ status ≤ 299 then
      if status = 204 then .ok none
      else .ok (some value)
    else
      .error (.cli { message := "Todoist API " ++ toString status ++ ": " ++
        (if bodyText.data.isEmpty then statusText else bodyText), exitCode := 1 })

/-- The retry loop starting at attempt index `attempt` with `remaining`
further attempts allowed after the current one: a successful attempt
returns immediately, a failed attempt is retried until none remain, and
only the most recent failure is kept. Returns the final outcome and the
number of attempts performed. -/
def attemptLoop {α : Type} (oracle : Nat → FetchOutcome α) :
    Nat → Nat → Except RawError (Option α) × Nat
  | attempt, 0 => (attemptOutcome (oracle attempt), 1)
  | attempt, remaining + 1 =>
    match attemptOutcome (oracle attempt) with
    | .ok v => (.ok v, 1)
    | .error _ =>
      let rest := attemptLoop oracle (attempt + 1) remaining
      (rest.1, rest.2 + 1)

/-- After the loop exhausts: a captured `CliError` is rethrown as-is,
any other error is wrapped with its message and exit code 1. -/
def finalizeRaw : RawError → CliError
  | .cli e => e
  | .net msg => { message := msg, exitCode := 1 }

/-- JSON scalar values appearing in task-mutation request bodies. -/
inductive JsonField where
  | str (s : String)
  | num (n : Nat)
  deriving Repr, DecidableEq

/-- One unit of the batched sync protocol. -/
structure ReminderCommand where
  type : String
  uuid : String
  temp_id : String
  args : ReminderArgs
  deriving Repr, DecidableEq

/-- A request payload: none, a JSON object given as its (ordered) fields
with absent fields omitted, or the form-encoded serialized command
batch of the sync call. -/
inductive RequestBody where
  | empty
  | json (fields : List (String × JsonField))
  | form (commands : List ReminderCommand)
  deriving Repr, DecidableEq

/-- One transport call as made on the wire: method, path, payload and
the number of attempts its retry loop performed. -/
structure CallEvent where
  method : String
  path : String
  body : RequestBody
  attempts : Nat
  deriving Repr, DecidableEq

/-- The message of the missing-token error. -/
def authMissingMessage : String :=
  "Todoist API token not configured. Set TODOIST_API_TOKEN or run: todoist cfg set apiToken -"

/-- Model of `TodoistClient.requestWithBody`: checks the token once per call, then
runs the retry loop for at most `retries + 1` attempts. Returns the
result together with the transport calls actually made (none when the
token check fails). -/
def requestWithBody {α : Type} (cfg : EffectiveConfig) (method path : String)
    (body : RequestBody) (oracle : Nat → FetchOutcome α) :
    Except CliError (Option α) × List CallEvent :=
  if tokenUnset cfg then
    (.error { message := authMissingMessage, exitCode := 1 }, [])
  else
    let run := attemptLoop oracle 0 cfg.retries
    (match run.1 with
     | .ok v => .ok v
     | .error e => .error (finalizeRaw e),
     [{ method := method, path := path, body := body, attempts := run.2 }])

/-- The sync endpoint's response: an optional `sync_status` mapping from
correlation id to status token, modelled as a lookup function (status
tokens are modelled as strings). -/
structure SyncResponse where
  sync_status : Option (String → Option String)

/-- The defaulting `response.sync_status || \x7b\x7d`. -/
def syncStatusOf (response : SyncResponse) : String → Option String :=
  response.sync_status.getD (fun _ => none)

/-- The verification loop of `addTaskReminders`: each submitted command's
uuid must map to the literal string "ok"; the first offender in
submission order aborts the call, citing its reported status or
"unknown error" when the entry is absent. -/
def checkSyncStatus (syncStatus : String → Option String) :
    List ReminderCommand → Except CliError Unit
  | [] => .ok ()
  | command :: rest =>
    if syncStatus command.uuid = some "ok" then
      checkSyncStatus syncStatus rest
    else
      .error { message := "Failed to add reminder: " ++
                 (syncStatus command.uuid).getD "unknown error",
               exitCode := 1 }

/-- The command-construction map of `addTaskReminders`: parses each raw
value (the first parse failure aborts the whole map, before any network
call) and wraps the parsed args with fresh ids from the injected
generator and the target task id. The `index` counts generator draws in
source order: uuid first, then temp id, per command. -/
def buildCommands (gen : Nat → String) (taskId : String) :
    List String → Nat → Except CliError (List ReminderCommand)
  | [], _ => .ok []
  | value :: rest, index =>
    match parseReminderValue value with
    | .error e => .error e
    | .ok parsed =>
      match buildCommands gen taskId rest (index + 1) with
      | .error e => .error e
      | .ok commands =>
        .ok ({ type := "reminder_add", uuid := gen (2 * index),
               temp_id := gen (2 * index + 1),
               args := { parsed with item_id := taskId } } :: commands)

/-- Model of `TodoistClient.addTaskReminders`: builds one command per raw value,
submits the batch in one form-encoded POST to the sync endpoint, then
checks every command's per-uuid status. A 204 from the sync endpoint
would make the source throw a TypeError reading `sync_status` of
`undefined`; modelled as an error. -/
def addTaskReminders (cfg : EffectiveConfig) (gen : Nat → String)
    (syncOracle : Nat → FetchOutcome SyncResponse) (taskId : String)
    (reminders : List String) : Except CliError Unit × List CallEvent :=
  match buildCommands gen taskId reminders 0 with
  | .error e => (.error e, [])
  | .ok commands =>
    let run := requestWithBody cfg "POST" "/api/v1/sync"
      (RequestBody.form commands) syncOracle
    (match run.1 with
     | .error e => .error e
     | .ok none => .error { message := "TypeError: undefined response", exitCode := 1 }
     | .ok (some response) => checkSyncStatus (syncStatusOf response) commands,
     run.2)

/-- Model of `TodoistTask` from the client module. -/
structure TodoistTask where
  id : String
  content : String
  project_id : String
  is_completed : Bool
  url : String
  deriving Repr, DecidableEq

/-- Model of `TaskListResponse`: a bare array or an object with an optional
`results` field. -/
inductive TaskListResponse where
  | arr (tasks : List TodoistTask)
  | obj (results : Option (List TodoistTask))
  deriving Repr, DecidableEq

/-- Parameters of `listTasks` (the query parameters they become are not
part of the call-event model). -/
structure ListTasksParams where
  projectId : Option String
  filter : Option String
  deriving Repr, DecidableEq

/-- Model of `TodoistClient.listTasks`: one GET; a bare-array response is
returned as-is, otherwise the `results` field, defaulting to the empty
list. A 204 (no body) would make the source throw a TypeError reading
`results` of `undefined`; modelled as an error. -/
def listTasks (cfg : EffectiveConfig) (params : ListTasksParams)
    (oracle : Nat → FetchOutcome TaskListResponse) :
    Except CliError (List TodoistTask) × List CallEvent :=
  let run := requestWithBody cfg "GET" "/api/v1/tasks" RequestBody.empty oracle
  (match run.1 with
   | .error e => .error e
   | .ok none => .error { message := "TypeError: undefined response", exitCode := 1 }
   | .ok (some response) =>
     match response with
     | .arr tasks => .ok tasks
     | .obj results => .ok (results.getD []),
   run.2)

/-- Inputs of `addTask`. -/
structure AddTaskInput where
  content : String
  projectId : Option String
  dueString : Option String
  priority : Option Nat
  reminders : Option (List String)
  deriving Repr, DecidableEq

/-- The JSON body of the task-creation POST: `JSON.stringify` drops the
fields whose value is `undefined`, so absent fields are omitted. -/
def addTaskBody (input : AddTaskInput) : RequestBody :=
  .json ([("content", JsonField.str input.content)] ++
    (match input.projectId with
     | some p => [("project_id", JsonField.str p)]
     | none => []) ++
    (match input.dueString with
     | some d => [("due_string", JsonField.str d)]
     | none => []) ++
    (match input.priority with
     | some p => [("priority", JsonField.num p)]
     | none => []))

/-- Model of `TodoistClient.addTask`: one POST creating the task; when
`reminders` is present and non-empty, `addTaskReminders` runs strictly
afterwards with the returned task's id; its failure propagates but
triggers no further transport call. A 204 would leave the task
`undefined` and the source would throw a TypeError reading its id;
modelled as an error. -/
def addTask (cfg : EffectiveConfig) (gen : Nat → String)
    (taskOracle : Nat → FetchOutcome TodoistTask)
    (syncOracle : Nat → FetchOutcome SyncResponse) (input : AddTaskInput) :
    Except CliError (Option TodoistTask) × List CallEvent :=
  let run := requestWithBody cfg "POST" "/api/v1/tasks" (addTaskBody input) taskOracle
  match run.1 with
  | .error e => (.error e, run.2)
  | .ok taskOpt =>
    match input.reminders with
    | some reminders =>
      if 0 < reminders.length then
        match taskOpt with
        | none => (.error { message := "TypeError: undefined task", exitCode := 1 }, run.2)
        | some task =>
          let follow := addTaskReminders cfg gen syncOracle task.id reminders
          (match follow.1 with
           | .error e => .error e
           | .ok _ => .ok (some task),
           run.2 ++ follow.2)
      else (.ok taskOpt, run.2)
    | none => (.ok taskOpt, run.2)

/-- Inputs of `updateTask`, as passed by the CLI update action
(`content`, `dueString`, `priority` optional; `reminders` always a
list, possibly empty). -/
structure UpdateTaskInput where
  taskId : String
  content : Option String
  dueString : Option String
  priority : Option Nat
  reminders : List String
  deriving Repr, DecidableEq

/-- Modelled from the spec: the JSON body of the task-update POST. The
`updateTask` implementation is not among the provided sources, and §4.4
requires the provided fields to be sent with absent fields omitted from
the payload, never as null. -/
def updateTaskBody (input : UpdateTaskInput) : RequestBody :=
  .json ((match input.content with
     | some c => [("content", JsonField.str c)]
     | none => []) ++
    (match input.dueString with
     | some d => [("due_string", JsonField.str d)]
     | none => []) ++
    (match input.priority with
     | some p => [("priority", JsonField.num p)]
     | none => []))

/-- Modelled from the spec: `updateTask` is invoked by the CLI update
action but its implementation is missing from the provided sources
(only this caller is present). Per §4.4 it issues one Transport POST to
the task's update path with the provided fields and returns the updated
Task; if `reminders` is non-empty it invokes the reminder adapter with
the affected task's id as a strictly sequential follow-up, whose
failure propagates without rolling the update back. -/
def updateTask (cfg : EffectiveConfig) (gen : Nat → String)
    (taskOracle : Nat → FetchOutcome TodoistTask)
    (syncOracle : Nat → FetchOutcome SyncResponse) (input : UpdateTaskInput) :
    Except CliError (Option TodoistTask) × List CallEvent :=
  let run := requestWithBody cfg "POST" ("/api/v1/tasks/" ++ input.taskId)
    (updateTaskBody input) taskOracle
  match run.1 with
  | .error e => (.error e, run.2)
  | .ok taskOpt =>
    if 0 < input.reminders.length then
      match taskOpt with
      | none => (.error { message := "TypeError: undefined task", exitCode := 1 }, run.2)
      | some task =>
        let follow := addTaskReminders cfg gen syncOracle task.id input.reminders
        (match follow.1 with
         | .error e => .error e
         | .ok _ => .ok (some task),
         run.2 ++ follow.2)
    else (.ok taskOpt, run.2)

/-! ### Concrete sample data used by the witnesses -/

/-- A configuration with a token and two retries. -/
def sampleCfg : EffectiveConfig :=
  { endpoint := "https://api.todoist.com", apiToken := some "token123",
    timeout := 10000, retries := 2 }

/-- A server-side task with id "42". -/
def sampleTask : TodoistTask :=
  { id := "42", content := "Buy milk", project_id := "7",
    is_completed := false, url := "https://app.todoist.com/task/42" }

/-- A deterministic unique-id generator. -/
def sampleGen (n : Nat) : String :=
  "u" ++ toString n

/-- First command built from reminders ["10", "20", "30"] on task "42". -/
def sampleCmd0 : ReminderCommand :=
  { type := "reminder_add", uuid := sampleGen 0, temp_id := sampleGen 1,
    args := { item_id := "42", type := .relative, minute_offset := some 10, due := none } }

/-- Second command built from reminders ["10", "20", "30"] on task "42". -/
def sampleCmd1 : ReminderCommand :=
  { type := "reminder_add", uuid := sampleGen 2, temp_id := sampleGen 3,
    args := { item_id := "42", type := .relative, minute_offset := some 20, due := none } }

/-- Third command built from reminders ["10", "20", "30"] on task "42". -/
def sampleCmd2 : ReminderCommand :=
  { type := "reminder_add", uuid := sampleGen 4, temp_id := sampleGen 5,
    args := { item_id := "42", type := .relative, minute_offset := some 30, due := none } }

/-- The single command built from the reminder list ["30"] on task "42". -/
def sampleCmd30 : ReminderCommand :=
  { type := "reminder_add", uuid := sampleGen 0, temp_id := sampleGen 1,
    args := { item_id := "42", type := .relative, minute_offset := some 30, due := none } }

/-- A status map failing exactly the second command of the sample batch. -/
def sampleStatusMap (k : String) : Option String :=
  if k = sampleGen 2 then some "bad" else some "ok"

/-- A sync response carrying `sampleStatusMap`. -/
def sampleSyncResponse : SyncResponse :=
  { sync_status := some sampleStatusMap }

/-- A sync oracle answering every attempt with `sampleSyncResponse`. -/
def sampleSyncOracle : Nat → FetchOutcome SyncResponse :=
  fun _ => FetchOutcome.resp 200 "" "OK" sampleSyncResponse

/-- A sync oracle whose status map reports every command as "ok". -/
def sampleOkSyncOracle : Nat → FetchOutcome SyncResponse :=
  fun _ => FetchOutcome.resp 200 "" "OK" { sync_status := some (fun _ => some "ok") }

/-- The add-task input of the end-to-end scenario of spec §8. -/
def sampleAddInput : AddTaskInput :=
  { content := "Buy milk", projectId := none, dueString := none,
    priority := none, reminders := some ["30"] }

/-- An update-task input with no reminders. -/
def sampleUpdateInput : UpdateTaskInput :=
  { taskId := "42", content := some "Write release notes v2",
    dueString := none, priority := some 4, reminders := [] }

/-! ### Helper lemmas about the retry loop -/

/-- A successful first attempt ends the loop after exactly one attempt. -/
theorem attemptLoop_first_success {α : Type} (oracle : Nat → FetchOutcome α)
    (start remaining : Nat) (v : Option α)
    (h : attemptOutcome (oracle start) = Except.ok v) :
    attemptLoop oracle start remaining = (Except.ok v, 1) := by
  cases remaining with
  | zero => simp [attemptLoop, h]
  | succ n => simp [attemptLoop, h]

/-- When every allowed attempt fails, the loop performs all of them and
keeps only the last failure. -/
theorem attemptLoop_all_fail {α : Type} (oracle : Nat → FetchOutcome α) :
    ∀ remaining start : Nat,
      (∀ i, start ≤ i → i ≤ start + remaining →
        ∃ e, attemptOutcome (oracle i) = Except.error e) →
      ∃ e, attemptOutcome (oracle (start + remaining)) = Except.error e ∧
        attemptLoop oracle start remaining = (Except.error e, remaining + 1) := by
  intro remaining
  induction remaining with
  | zero =>
    intro start h
    obtain ⟨e, he⟩ := h start (Nat.le_refl _) (Nat.le_refl _)
    exact ⟨e, he, by simp [attemptLoop, he]⟩
  | succ n ih =>
    intro start h
    obtain ⟨e0, he0⟩ := h start (Nat.le_refl _) (by omega)
    obtain ⟨e, he, hloop⟩ := ih (start + 1) (fun i h1 h2 => h i (by omega) (by omega))
    refine ⟨e, ?_, ?_⟩
    · have harith : start + (n + 1) = start + 1 + n := by omega
      rw [harith]
      exact he
    · simp [attemptLoop, he0, hloop]

/-- A call whose first attempt gets a non-204 2xx response succeeds with
that attempt's parsed value after exactly one attempt. -/
theorem requestWithBody_first_success {α : Type} (cfg : EffectiveConfig)
    (method path : String) (body : RequestBody) (oracle : Nat → FetchOutcome α)
    (status : Nat) (bodyText statusText : String) (value : α)
    (hTok : tokenUnset cfg = false)
    (hResp : oracle 0 = FetchOutcome.resp status bodyText statusText value)
    (hOk : 200 ≤ status ∧ status ≤ 299) (h204 : status ≠ 204) :
    requestWithBody cfg method path body oracle =
      (Except.ok (some value),
       [{ method := method, path := path, body := body, attempts := 1 }]) := by
  have hout : attemptOutcome (oracle 0) = Except.ok (some value) := by
    rw [hResp]
    simp [attemptOutcome, hOk, h204]
  simp [requestWithBody, hTok, attemptLoop_first_success oracle 0 cfg.retries _ hout]

/-- Small numeric values are comfortably below the binary64 overflow
threshold. -/
theorem jsNumberFinite_of_lt (n : Nat) (h : n < 2 ^ 970) :
    jsNumberFinite n = true := by
  have h2 : (2 : Nat) ^ 970 + 2 ^ 970 = 2 ^ 971 := by
    rw [pow_succ]
    omega
  have h3 : (2 : Nat) ^ 971 ≤ 2 ^ 1024 := Nat.pow_le_pow_right (by omega) (by omega)
  unfold jsNumberFinite
  simp only [decide_eq_true_eq]
  omega

/-! ### Claim theorems -/

/-- C3: for every digit-only input string, a positive finite numeric
value yields a relative reminder spec carrying exactly that minute
offset, while a zero or non-finite value fails with the
invalid-reminder-value error (exit code 2). -/
theorem parseReminderValue_digit_strings (s : String)
    (h : isDigitString s = true) :
    (0 < digitsToNat s ∧ jsNumberFinite (digitsToNat s) = true →
      parseReminderValue s = Except.ok
        { item_id := "", type := .relative,
          minute_offset := some (digitsToNat s), due := none }) ∧
    (digitsToNat s = 0 ∨ jsNumberFinite (digitsToNat s) = false →
      parseReminderValue s = Except.error
        { message := "Invalid reminder minutes value: " ++ s, exitCode := 2 }) := by
  constructor
  · rintro ⟨hpos, hfin⟩
    have h0 : digitsToNat s ≠ 0 := Nat.pos_iff_ne_zero.mp hpos
    simp [parseReminderValue, h, hfin, h0, Nat.le_zero]
  · rintro (hz | hnf)
    · simp [parseReminderValue, h, hz]
    · simp [parseReminderValue, h, hnf]

/-- Witness for C3 at the inputs "30" (positive, finite) and "0". -/
theorem parseReminderValue_digit_strings_witness :
    parseReminderValue "30" = Except.ok
      { item_id := "", type := .relative, minute_offset := some 30, due := none } ∧
    parseReminderValue "0" = Except.error
      { message := "Invalid reminder minutes value: 0", exitCode := 2 } :=
  ⟨(parseReminderValue_digit_strings "30" (by decide)).1
    (by
      refine ⟨by decide, jsNumberFinite_of_lt _ ?_⟩
      have h30 : digitsToNat "30" = 30 := by decide
      rw [h30]
      calc (30 : Nat) < 2 ^ 5 := by norm_num
        _ ≤ 2 ^ 970 := Nat.pow_le_pow_right (by norm_num) (by norm_num)),
   (parseReminderValue_digit_strings "0" (by decide)).2 (Or.inl (by decide))⟩

/-- C4: every input that is not purely one-or-more ASCII digits parses
without failing into an absolute reminder spec whose date is the input
string unchanged. -/
theorem parseReminderValue_nondigit (s : String)
    (h : isDigitString s = false) :
    parseReminderValue s = Except.ok
      { item_id := "", type := .absolute, minute_offset := none,
        due := some { date := s } } := by
  simp [parseReminderValue, h]

/-- Witness for C4 at the inputs "-5" and "3.5". -/
theorem parseReminderValue_nondigit_witness :
    parseReminderValue "-5" = Except.ok
      { item_id := "", type := .absolute, minute_offset := none,
        due := some { date := "-5" } } ∧
    parseReminderValue "3.5" = Except.ok
      { item_id := "", type := .absolute, minute_offset := none,
        due := some { date := "3.5" } } :=
  ⟨parseReminderValue_nondigit "-5" (by decide),
   parseReminderValue_nondigit "3.5" (by decide)⟩

/-- C10: the empty string does not match the one-or-more-digits pattern,
so it parses without failing into an absolute reminder spec with the
empty date string. -/
theorem parseReminderValue_empty_input :
    parseReminderValue "" = Except.ok
      { item_id := "", type := .absolute, minute_offset := none,
        due := some { date := "" } } := by
  rfl

/-- C5: with the api token unset, any transport call fails with the
missing-token error (exit code 1) and performs zero network attempts,
for every retry budget. -/
theorem requestWithBody_missing_token {α : Type} (cfg : EffectiveConfig)
    (method path : String) (body : RequestBody) (oracle : Nat → FetchOutcome α)
    (h : tokenUnset cfg = true) :
    requestWithBody cfg method path body oracle =
      (Except.error { message := authMissingMessage, exitCode := 1 }, []) := by
  simp [requestWithBody, h]

/-- Witness for C5 with an absent token and three configured retries. -/
theorem requestWithBody_missing_token_witness :
    requestWithBody
        { endpoint := "https://api.todoist.com", apiToken := none,
          timeout := 10000, retries := 3 }
        "GET" "/api/v1/tasks" RequestBody.empty
        (fun _ => FetchOutcome.netFail (α := Unit) "connection refused") =
      (Except.error { message := authMissingMessage, exitCode := 1 }, []) :=
  requestWithBody_missing_token _ _ _ _ _ rfl

/-- C2: when the token is set and every attempt up to the retry budget
fails, the transport performs exactly `retries + 1` attempts in one
call and surfaces the failure of the last attempt (earlier failures are
discarded). -/
theorem requestWithBody_retry_exhaustion {α : Type} (cfg : EffectiveConfig)
    (method path : String) (body : RequestBody) (oracle : Nat → FetchOutcome α)
    (hTok : tokenUnset cfg = false)
    (hFail : ∀ i, i ≤ cfg.retries →
      ∃ e, attemptOutcome (oracle i) = Except.error e) :
    ∃ e, attemptOutcome (oracle cfg.retries) = Except.error e ∧
      requestWithBody cfg method path body oracle =
        (Except.error (finalizeRaw e),
         [{ method := method, path := path, body := body,
            attempts := cfg.retries + 1 }]) := by
  obtain ⟨e, he, hloop⟩ :=
    attemptLoop_all_fail oracle cfg.retries 0 (fun i h1 h2 => hFail i (by omega))
  refine ⟨e, by simpa using he, ?_⟩
  simp [requestWithBody, hTok, hloop]

/-- Witness for C2: two retries, every attempt a network failure, three
attempts performed, the last failure surfaced. -/
theorem requestWithBody_retry_exhaustion_witness :
    ∃ e, attemptOutcome (FetchOutcome.netFail (α := Unit) "connection refused") =
        Except.error e ∧
      requestWithBody
          { endpoint := "https://api.todoist.com", apiToken := some "token123",
            timeout := 10000, retries := 2 }
          "GET" "/api/v1/tasks" RequestBody.empty
          ((fun _ => FetchOutcome.netFail "connection refused") :
            Nat → FetchOutcome Unit) =
        (Except.error (finalizeRaw e),
         [{ method := "GET", path := "/api/v1/tasks", body := RequestBody.empty,
            attempts := 3 }]) :=
  requestWithBody_retry_exhaustion
    { endpoint := "https://api.todoist.com", apiToken := some "token123",
      timeout := 10000, retries := 2 }
    "GET" "/api/v1/tasks" RequestBody.empty
    ((fun _ => FetchOutcome.netFail "connection refused") : Nat → FetchOutcome Unit)
    (by decide) (fun i _ => ⟨RawError.net "connection refused", rfl⟩)

/-! ### Helper lemmas about the batch adapter -/

/-- When every command's uuid maps to "ok", the status check passes. -/
theorem checkSyncStatus_all_ok (m : String → Option String) :
    ∀ cs : List ReminderCommand, (∀ c ∈ cs, m c.uuid = some "ok") →
      checkSyncStatus m cs = Except.ok () := by
  intro cs
  induction cs with
  | nil => intro h; rfl
  | cons c rest ih =>
    intro h
    have hc := h c (List.mem_cons_self c rest)
    simp only [checkSyncStatus, hc, if_pos]
    exact ih (fun x hx => h x (List.mem_cons_of_mem _ hx))

/-- The status check fails on the first command (in submission order)
whose uuid does not map to "ok", citing that command's status. -/
theorem checkSyncStatus_first_fail (m : String → Option String) :
    ∀ (pre : List ReminderCommand) (c : ReminderCommand) (post : List ReminderCommand),
      (∀ p ∈ pre, m p.uuid = some "ok") → m c.uuid ≠ some "ok" →
      checkSyncStatus m (pre ++ c :: post) =
        Except.error { message := "Failed to add reminder: " ++
          (m c.uuid).getD "unknown error", exitCode := 1 } := by
  intro pre
  induction pre with
  | nil =>
    intro c post hpre hc
    simp [checkSyncStatus, hc]
  | cons p rest ih =>
    intro c post hpre hc
    have hp := hpre p (List.mem_cons_self p rest)
    simp only [List.cons_append, checkSyncStatus, hp, if_pos]
    exact ih c post (fun x hx => hpre x (List.mem_cons_of_mem _ hx)) hc

/-- A parse failure always carries the invalid-reminder message and exit
code 2. -/
theorem parseReminderValue_error_shape (value : String) (e : CliError)
    (h : parseReminderValue value = Except.error e) :
    e = { message := "Invalid reminder minutes value: " ++ value, exitCode := 2 } := by
  simp only [parseReminderValue] at h
  split at h
  · split at h
    · simp only [Except.error.injEq] at h
      exact h.symm
    · simp at h
  · simp at h

/-- The command-construction map surfaces the first parse failure. -/
theorem buildCommands_parse_fail (gen : Nat → String) (taskId : String) :
    ∀ (pre : List String) (value : String) (post : List String) (index : Nat) (e : CliError),
      (∀ p ∈ pre, ∃ args, parseReminderValue p = Except.ok args) →
      parseReminderValue value = Except.error e →
      buildCommands gen taskId (pre ++ value :: post) index = Except.error e := by
  intro pre
  induction pre with
  | nil =>
    intro value post index e hpre hv
    simp [buildCommands, hv]
  | cons p rest ih =>
    intro value post index e hpre hv
    obtain ⟨args, hp⟩ := hpre p (List.mem_cons_self p rest)
    have hrest := ih value post (index + 1) e
      (fun x hx => hpre x (List.mem_cons_of_mem _ hx)) hv
    simp [buildCommands, hp, hrest]

/-- Every successfully built command targets the given task id. -/
theorem buildCommands_item_id (gen : Nat → String) (taskId : String) :
    ∀ (reminders : List String) (index : Nat) (commands : List ReminderCommand),
      buildCommands gen taskId reminders index = Except.ok commands →
      ∀ c ∈ commands, c.args.item_id = taskId := by
  intro reminders
  induction reminders with
  | nil =>
    intro index commands h c hc
    simp only [buildCommands, Except.ok.injEq] at h
    subst h
    simp at hc
  | cons v rest ih =>
    intro index commands h c hc
    simp only [buildCommands] at h
    cases hv : parseReminderValue v with
    | error e => rw [hv] at h; simp at h
    | ok parsed =>
      rw [hv] at h
      cases hb : buildCommands gen taskId rest (index + 1) with
      | error e => rw [hb] at h; simp at h
      | ok cs =>
        rw [hb] at h
        simp only [Except.ok.injEq] at h
        subst h
        rcases List.mem_cons.mp hc with hceq | hcm
        · subst hceq; rfl
        · exact ih (index + 1) cs hb c hcm

/-! ### Remaining claim theorems -/

/-- C6: with the token set and a successful first GET, `listTasks`
returns a bare-array response as-is, the `results` field of a wrapped
response (so identical contents yield identical output), and the empty
list when the object has no `results` field. -/
theorem listTasks_normalizes_shapes (cfg : EffectiveConfig)
    (params : ListTasksParams) (oracle : Nat → FetchOutcome TaskListResponse)
    (hTok : tokenUnset cfg = false) :
    (∀ bodyText statusText tasks,
      oracle 0 = FetchOutcome.resp 200 bodyText statusText (TaskListResponse.arr tasks) →
      (listTasks cfg params oracle).1 = Except.ok tasks) ∧
    (∀ bodyText statusText tasks,
      oracle 0 = FetchOutcome.resp 200 bodyText statusText (TaskListResponse.obj (some tasks)) →
      (listTasks cfg params oracle).1 = Except.ok tasks) ∧
    (∀ bodyText statusText,
      oracle 0 = FetchOutcome.resp 200 bodyText statusText (TaskListResponse.obj none) →
      (listTasks cfg params oracle).1 = Except.ok []) := by
  refine ⟨?_, ?_, ?_⟩
  · intro bodyText statusText tasks hResp
    have hreq := requestWithBody_first_success cfg "GET" "/api/v1/tasks"
      RequestBody.empty oracle 200 bodyText statusText _ hTok hResp (by omega) (by omega)
    simp [listTasks, hreq]
  · intro bodyText statusText tasks hResp
    have hreq := requestWithBody_first_success cfg "GET" "/api/v1/tasks"
      RequestBody.empty oracle 200 bodyText statusText _ hTok hResp (by omega) (by omega)
    simp [listTasks, hreq]
  · intro bodyText statusText hResp
    have hreq := requestWithBody_first_success cfg "GET" "/api/v1/tasks"
      RequestBody.empty oracle 200 bodyText statusText _ hTok hResp (by omega) (by omega)
    simp [listTasks, hreq]

/-- Witness for C6 on a one-task list in all three response shapes. -/
theorem listTasks_normalizes_shapes_witness :
    (listTasks sampleCfg { projectId := none, filter := none }
        (fun _ => FetchOutcome.resp 200 "" "OK" (TaskListResponse.arr [sampleTask]))).1 =
      Except.ok [sampleTask] ∧
    (listTasks sampleCfg { projectId := none, filter := none }
        (fun _ => FetchOutcome.resp 200 "" "OK" (TaskListResponse.obj (some [sampleTask])))).1 =
      Except.ok [sampleTask] ∧
    (listTasks sampleCfg { projectId := none, filter := none }
        (fun _ => FetchOutcome.resp 200 "" "OK" (TaskListResponse.obj none))).1 =
      Except.ok [] :=
  ⟨(listTasks_normalizes_shapes sampleCfg { projectId := none, filter := none }
      (fun _ => FetchOutcome.resp 200 "" "OK" (TaskListResponse.arr [sampleTask]))
      (by decide)).1 "" "OK" [sampleTask] rfl,
   (listTasks_normalizes_shapes sampleCfg { projectId := none, filter := none }
      (fun _ => FetchOutcome.resp 200 "" "OK" (TaskListResponse.obj (some [sampleTask])))
      (by decide)).2.1 "" "OK" [sampleTask] rfl,
   (listTasks_normalizes_shapes sampleCfg { projectId := none, filter := none }
      (fun _ => FetchOutcome.resp 200 "" "OK" (TaskListResponse.obj none))
      (by decide)).2.2 "" "OK" rfl⟩

/-- C7: on a successful sync POST, the adapter call succeeds when every
submitted command's correlation id maps to the literal "ok", and fails
citing the reported status of the first failing command in submission
order otherwise (an absent entry counts as "unknown error"). -/
theorem addTaskReminders_batch_status (cfg : EffectiveConfig) (gen : Nat → String)
    (syncOracle : Nat → FetchOutcome SyncResponse) (taskId : String)
    (reminders : List String) (commands : List ReminderCommand)
    (response : SyncResponse) (bodyText statusText : String)
    (hTok : tokenUnset cfg = false)
    (hBuild : buildCommands gen taskId reminders 0 = Except.ok commands)
    (hResp : syncOracle 0 = FetchOutcome.resp 200 bodyText statusText response) :
    ((∀ c ∈ commands, syncStatusOf response c.uuid = some "ok") →
      addTaskReminders cfg gen syncOracle taskId reminders =
        (Except.ok (),
         [{ method := "POST", path := "/api/v1/sync",
            body := RequestBody.form commands, attempts := 1 }])) ∧
    (∀ pre c post, commands = pre ++ c :: post →
      (∀ p ∈ pre, syncStatusOf response p.uuid = some "ok") →
      syncStatusOf response c.uuid ≠ some "ok" →
      addTaskReminders cfg gen syncOracle taskId reminders =
        (Except.error
           { message := "Failed to add reminder: " ++
               (syncStatusOf response c.uuid).getD "unknown error", exitCode := 1 },
         [{ method := "POST", path := "/api/v1/sync",
            body := RequestBody.form commands, attempts := 1 }])) := by
  have hreq := requestWithBody_first_success cfg "POST" "/api/v1/sync"
    (RequestBody.form commands) syncOracle 200 bodyText statusText response
    hTok hResp (by omega) (by omega)
  constructor
  · intro hall
    simp [addTaskReminders, hBuild, hreq, checkSyncStatus_all_ok _ _ hall]
  · intro pre c post hsplit hpre hc
    subst hsplit
    simp [addTaskReminders, hBuild, hreq,
      checkSyncStatus_first_fail _ _ _ _ hpre hc]

set_option maxRecDepth 8000 in
/-- Witness for C7: three commands whose second is reported "bad" make
the adapter fail citing that status. -/
theorem addTaskReminders_batch_status_witness :
    addTaskReminders sampleCfg sampleGen sampleSyncOracle "42" ["10", "20", "30"] =
      (Except.error { message := "Failed to add reminder: bad", exitCode := 1 },
       [{ method := "POST", path := "/api/v1/sync",
          body := RequestBody.form [sampleCmd0, sampleCmd1, sampleCmd2],
          attempts := 1 }]) := by
  have h := (addTaskReminders_batch_status sampleCfg sampleGen sampleSyncOracle "42"
      ["10", "20", "30"] [sampleCmd0, sampleCmd1, sampleCmd2] sampleSyncResponse
      "" "OK" (by decide) (by decide) rfl).2
    [sampleCmd0] sampleCmd1 [sampleCmd2] rfl (by decide) (by decide)
  rw [h]
  decide

/-- C8: when some raw reminder value fails to parse (all values before
it parsing fine), the whole adapter call fails with that parse error
(the invalid-reminder error, exit code 2) and no transport call is
made. -/
theorem addTaskReminders_parse_failfast (cfg : EffectiveConfig) (gen : Nat → String)
    (syncOracle : Nat → FetchOutcome SyncResponse) (taskId : String)
    (pre : List String) (value : String) (post : List String) (e : CliError)
    (hpre : ∀ p ∈ pre, ∃ args, parseReminderValue p = Except.ok args)
    (hfail : parseReminderValue value = Except.error e) :
    addTaskReminders cfg gen syncOracle taskId (pre ++ value :: post) =
      (Except.error e, []) ∧
    e = { message := "Invalid reminder minutes value: " ++ value, exitCode := 2 } := by
  have hb := buildCommands_parse_fail gen taskId pre value post 0 e hpre hfail
  constructor
  · simp [addTaskReminders, hb]
  · exact parseReminderValue_error_shape value e hfail

set_option maxRecDepth 8000 in
/-- Witness for C8: the list ["10", "0", "5"] fails on "0" with exit
code 2 and performs no transport call. -/
theorem addTaskReminders_parse_failfast_witness :
    addTaskReminders sampleCfg sampleGen sampleSyncOracle "42" (["10"] ++ "0" :: ["5"]) =
      (Except.error { message := "Invalid reminder minutes value: 0", exitCode := 2 }, []) ∧
    ({ message := "Invalid reminder minutes value: 0", exitCode := 2 } : CliError) =
      { message := "Invalid reminder minutes value: " ++ "0", exitCode := 2 } :=
  addTaskReminders_parse_failfast sampleCfg sampleGen sampleSyncOracle "42"
    ["10"] "0" ["5"] { message := "Invalid reminder minutes value: 0", exitCode := 2 }
    (by
      intro p hp
      simp only [List.mem_singleton] at hp
      subst hp
      exact ⟨{ item_id := "", type := .relative, minute_offset := some 10, due := none },
        by decide⟩)
    (by decide)

/-- C9: with a non-empty reminder list and a successful task-creation
POST, `addTask` makes exactly the creation call followed by the
reminder adapter's calls on the new task's id; a reminder failure is
surfaced as that distinct error while no further (compensating)
transport call appears; and every built command targets the new task's
id. -/
theorem addTask_reminder_followup (cfg : EffectiveConfig) (gen : Nat → String)
    (taskOracle : Nat → FetchOutcome TodoistTask)
    (syncOracle : Nat → FetchOutcome SyncResponse) (input : AddTaskInput)
    (task : TodoistTask) (reminders : List String) (bodyText statusText : String)
    (hTok : tokenUnset cfg = false)
    (hRem : input.reminders = some reminders) (hNe : reminders ≠ [])
    (hResp : taskOracle 0 = FetchOutcome.resp 200 bodyText statusText task) :
    addTask cfg gen taskOracle syncOracle input =
      ((match (addTaskReminders cfg gen syncOracle task.id reminders).1 with
        | .error e => .error e
        | .ok _ => .ok (some task)),
       { method := "POST", path := "/api/v1/tasks", body := addTaskBody input,
         attempts := 1 } ::
         (addTaskReminders cfg gen syncOracle task.id reminders).2) ∧
    (∀ commands, buildCommands gen task.id reminders 0 = Except.ok commands →
      ∀ c ∈ commands, c.args.item_id = task.id) := by
  have hreq := requestWithBody_first_success cfg "POST" "/api/v1/tasks"
    (addTaskBody input) taskOracle 200 bodyText statusText task
    hTok hResp (by omega) (by omega)
  have hlen : 0 < reminders.length := List.length_pos.mpr hNe
  constructor
  · simp only [addTask, hreq, hRem, if_pos hlen]
    cases hfollow : (addTaskReminders cfg gen syncOracle task.id reminders).1 <;>
      simp [hfollow]
  · intro commands hb c hc
    exact buildCommands_item_id gen task.id reminders 0 commands hb c hc

set_option maxRecDepth 8000 in
/-- Witness for C9: the end-to-end scenario of spec §8 — creating "Buy
milk" with reminder "30" against an all-ok sync oracle returns the task
and makes exactly two transport calls, create then sync. -/
theorem addTask_reminder_followup_witness :
    addTask sampleCfg sampleGen (fun _ => FetchOutcome.resp 200 "" "OK" sampleTask)
        sampleOkSyncOracle sampleAddInput =
      (Except.ok (some sampleTask),
       [{ method := "POST", path := "/api/v1/tasks",
          body := addTaskBody sampleAddInput, attempts := 1 },
        { method := "POST", path := "/api/v1/sync",
          body := RequestBody.form [sampleCmd30], attempts := 1 }]) := by
  have h := (addTask_reminder_followup sampleCfg sampleGen
      (fun _ => FetchOutcome.resp 200 "" "OK" sampleTask) sampleOkSyncOracle
      sampleAddInput sampleTask ["30"] "" "OK" (by decide) rfl (by decide) rfl).1
  rw [h]
  decide

/-- C1: `updateTask` is defined for every input; with the token set and
a successful first POST it performs exactly one task-update POST to the
task's path carrying the provided fields and returns the updated task,
followed by the reminder adapter's calls only when `reminders` is
non-empty. -/
theorem updateTask_posts_update (cfg : EffectiveConfig) (gen : Nat → String)
    (taskOracle : Nat → FetchOutcome TodoistTask)
    (syncOracle : Nat → FetchOutcome SyncResponse) (input : UpdateTaskInput)
    (task : TodoistTask) (bodyText statusText : String)
    (hTok : tokenUnset cfg = false)
    (hResp : taskOracle 0 = FetchOutcome.resp 200 bodyText statusText task) :
    updateTask cfg gen taskOracle syncOracle input =
      ((if 0 < input.reminders.length then
          match (addTaskReminders cfg gen syncOracle task.id input.reminders).1 with
          | .error e => .error e
          | .ok _ => .ok (some task)
        else .ok (some task)),
       { method := "POST", path := "/api/v1/tasks/" ++ input.taskId,
         body := updateTaskBody input, attempts := 1 } ::
         (if 0 < input.reminders.length then
            (addTaskReminders cfg gen syncOracle task.id input.reminders).2
          else [])) := by
  have hreq := requestWithBody_first_success cfg "POST"
    ("/api/v1/tasks/" ++ input.taskId) (updateTaskBody input) taskOracle
    200 bodyText statusText task hTok hResp (by omega) (by omega)
  by_cases hlen : 0 < input.reminders.length
  · simp only [updateTask, hreq, if_pos hlen]
    cases hfollow : (addTaskReminders cfg gen syncOracle task.id input.reminders).1 <;>
      simp [hfollow]
  · simp [updateTask, hreq, hlen]

/-- Witness for C1: updating task "42" with new content and priority and
no reminders makes exactly one POST to the task's path and returns the
updated task. -/
theorem updateTask_posts_update_witness :
    updateTask sampleCfg sampleGen (fun _ => FetchOutcome.resp 200 "" "OK" sampleTask)
        sampleOkSyncOracle sampleUpdateInput =
      (Except.ok (some sampleTask),
       [{ method := "POST", path := "/api/v1/tasks/42",
          body := updateTaskBody sampleUpdateInput, attempts := 1 }]) := by
  have h := updateTask_posts_update sampleCfg sampleGen
    (fun _ => FetchOutcome.resp 200 "" "OK" sampleTask) sampleOkSyncOracle
    sampleUpdateInput sampleTask "" "OK" (by decide) rfl
  rw [h]
  decide

end Todoist
